import Mathlib

/-!
Verification of the RF link-budget CGI program (`src/link_budget.cpp`)
against its natural-language specification.

The C++ program is shallowly embedded: `double` values are modelled by
`FVal` (an exact rational together with the IEEE special values `inf`,
`-inf` and `nan`), `std::stod` is modelled in two stages — an exact
`strtod` parse (decimal, hexadecimal, `inf`/`infinity` and
`nan`/`nan(chars)` forms) followed by correct rounding to an IEEE-754
binary64 value, with the ERANGE overflow/underflow conditions that make
`std::stod` throw `std::out_of_range` —, the filesystem holding the
per-session JSON records is an association list from paths to file
contents, and the single wall-clock value `time(nullptr)` observed during
a request is passed explicitly as `now`.  C++ exceptions become `Except`
results.
-/

set_option maxRecDepth 4000
set_option exponentiation.threshold 4000

namespace LinkBudget

/-- A parsed floating-point value: a finite exact rational or one of the
IEEE special values produced by `strtod` (`inf`, `-inf`, `nan`). -/
inductive FVal where
  | fin (q : ℚ)
  | inf
  | neginf
  | nan
deriving DecidableEq

/-- The C++ comparison `v < r` for a double `v` and finite bound `r`:
`nan` compares false against everything, `-inf` is below every finite
bound, `inf` is below none. -/
def FVal.ltQ : FVal → ℚ → Bool
  | .fin q, r => decide (q < r)
  | .inf, _ => false
  | .neginf, _ => true
  | .nan, _ => false

/-- The C++ comparison `v > r` for a double `v` and finite bound `r`. -/
def FVal.gtQ : FVal → ℚ → Bool
  | .fin q, r => decide (r < q)
  | .inf, _ => true
  | .neginf, _ => false
  | .nan, _ => false

/-- The finite value carried by an `FVal`, if any. -/
def FVal.toQ? : FVal → Option ℚ
  | .fin q => some q
  | _ => none

/-- Negation of a parsed value (applied for a leading `-` sign). -/
def FVal.neg : FVal → FVal
  | .fin q => .fin (-q)
  | .inf => .neginf
  | .neginf => .inf
  | .nan => .nan

/-- The whitespace characters skipped by `strtod` (C `isspace`). -/
def isSpaceC (c : Char) : Bool :=
  c = ' ' || c = '\t' || c = '\n' || c = '\x0b' || c = '\x0c' || c = '\r'

/-- Decimal digit test. -/
def isDigitC (c : Char) : Bool :=
  '0' ≤ c && c ≤ '9'

/-- Numeric value of a digit string (most significant first). -/
def digitsToNat (ds : List Char) : Nat :=
  ds.foldl (fun a c => 10 * a + (c.toNat - 48)) 0

/-- Case-insensitive prefix match, as `strtod` uses for `inf`/`nan`. -/
def matchCI : List Char → List Char → Bool
  | [], _ => true
  | _ :: _, [] => false
  | p :: ps, c :: cs => (c.toLower == p) && matchCI ps cs

/-- `b ^ n` over `Nat` by binary exponentiation on structural fuel, so
that large powers evaluate with shallow recursion (each step only halves
the exponent and multiplies).  Fuel `128` covers every exponent below
`2 ^ 128`; exponents beyond that denote values far outside any double's
range and are never evaluated. -/
def powFuel (b : Nat) : Nat → Nat → Nat
  | 0, _ => 1
  | _ + 1, 0 => 1
  | f + 1, n =>
    let h := powFuel b f (n / 2)
    if n % 2 = 0 then h * h else h * h * b

/-- See `powFuel`. -/
def npow (b n : Nat) : Nat := powFuel b 128 n

/-- `10 ^ z` over ℚ for a signed decimal exponent. -/
def qpow10 (z : Int) : ℚ :=
  if 0 ≤ z then ((npow 10 z.toNat : Nat) : ℚ) else ((npow 10 (-z).toNat : Nat) : ℚ)⁻¹

/-- `2 ^ z` over ℚ. -/
def pow2 (z : Int) : ℚ :=
  if 0 ≤ z then ((npow 2 z.toNat : Nat) : ℚ) else ((npow 2 (-z).toNat : Nat) : ℚ)⁻¹

/-- Hexadecimal digit test. -/
def isHexDigit (c : Char) : Bool :=
  ('0' ≤ c && c ≤ '9') || ('a' ≤ c && c ≤ 'f') || ('A' ≤ c && c ≤ 'F')

/-- Value of a hexadecimal digit. -/
def hexVal (c : Char) : Nat :=
  if c ≤ '9' then c.toNat - 48 else if c ≤ 'F' then c.toNat - 55 else c.toNat - 87

/-- Numeric value of a hexadecimal digit string (most significant first). -/
def hexDigitsToNat (ds : List Char) : Nat :=
  ds.foldl (fun a c => 16 * a + hexVal c) 0

/-- Whether a hexadecimal mantissa (hex digits, or a dot followed by hex
digits) starts here — `strtod` requires at least one hex digit after
`0x` for the hexadecimal interpretation to apply. -/
def hexMantNonempty : List Char → Bool
  | '.' :: c :: _ => isHexDigit c
  | c :: _ => isHexDigit c
  | [] => false

/-- Whether the subject sequence is a C99 hexadecimal float:
`0x`/`0X` followed by a non-empty hex mantissa.  (On bare `0x` with no
hex digit, `strtod` instead converts the longest valid decimal prefix,
namely the initial `0`.) -/
def isHexPrefix : List Char → Bool
  | '0' :: x :: rest => (x = 'x' || x = 'X') && hexMantNonempty rest
  | _ => false

/-- The characters allowed in the `n-char-sequence` of `nan(chars)`:
digits, letters and underscore. -/
def isNanChar (c : Char) : Bool :=
  ('0' ≤ c && c ≤ '9') || ('a' ≤ c && c ≤ 'z') || ('A' ≤ c && c ≤ 'Z') || c = '_'

/-- Parse an optional exponent part `(e|E)[+|-]digits` after the mantissa;
returns the multiplier and the number of characters consumed.  As in
`strtod`, a dangling `e` with no digits is not consumed at all. -/
def parseExp : List Char → ℚ × Nat
  | c :: rest =>
    if c = 'e' ∨ c = 'E' then
      match rest with
      | s :: rest2 =>
        if s = '+' ∨ s = '-' then
          let ds := rest2.takeWhile isDigitC
          if ds.length = 0 then (1, 0)
          else (qpow10 (if s = '-' then -(digitsToNat ds : Int) else (digitsToNat ds : Int)),
                2 + ds.length)
        else
          let ds := rest.takeWhile isDigitC
          if ds.length = 0 then (1, 0)
          else (qpow10 (digitsToNat ds : Int), 1 + ds.length)
      | [] => (1, 0)
    else (1, 0)
  | [] => (1, 0)

/-- Parse an optional binary exponent part `(p|P)[+|-]digits` of a
hexadecimal float; the multiplier is `2^±e`.  As with `e`, a dangling `p`
with no digits is not consumed. -/
def parseHexExp : List Char → ℚ × Nat
  | c :: rest =>
    if c = 'p' ∨ c = 'P' then
      match rest with
      | s :: rest2 =>
        if s = '+' ∨ s = '-' then
          let ds := rest2.takeWhile isDigitC
          if ds.length = 0 then (1, 0)
          else (pow2 (if s = '-' then -(digitsToNat ds : Int) else (digitsToNat ds : Int)),
                2 + ds.length)
        else
          let ds := rest.takeWhile isDigitC
          if ds.length = 0 then (1, 0)
          else (pow2 (digitsToNat ds : Int), 1 + ds.length)
      | [] => (1, 0)
    else (1, 0)
  | [] => (1, 0)

/-- Parse the unsigned body of a `strtod` subject sequence (after
whitespace and sign): the special forms `infinity`/`inf` and
`nan`/`nan(chars)` (case-insensitive), a C99 hexadecimal float, or a
decimal mantissa with optional fraction and exponent.  Returns the exact
value and the number of characters consumed, or `none` when no
conversion is possible. -/
def stodCore (cs : List Char) : Option (FVal × Nat) :=
  if matchCI ['i','n','f','i','n','i','t','y'] cs then some (.inf, 8)
  else if matchCI ['i','n','f'] cs then some (.inf, 3)
  else if matchCI ['n','a','n'] cs then
    match cs.drop 3 with
    | '(' :: rest =>
      let seq := rest.takeWhile isNanChar
      match rest.drop seq.length with
      | ')' :: _ => some (.nan, 3 + 1 + seq.length + 1)
      | _ => some (.nan, 3)
    | _ => some (.nan, 3)
  else if isHexPrefix cs then
    let rest := cs.drop 2
    let ip := rest.takeWhile isHexDigit
    let rest1 := rest.drop ip.length
    let hasDot : Bool := match rest1 with | '.' :: _ => true | _ => false
    let fp := if hasDot then (rest1.drop 1).takeWhile isHexDigit else []
    let mantLen := 2 + ip.length + (if hasDot then 1 + fp.length else 0)
    let mant : ℚ := (hexDigitsToNat ip : ℚ) + (hexDigitsToNat fp : ℚ) / ((npow 16 fp.length : Nat) : ℚ)
    let (expMul, expLen) := parseHexExp (cs.drop mantLen)
    some (.fin (mant * expMul), mantLen + expLen)
  else
    let ip := cs.takeWhile isDigitC
    let rest1 := cs.drop ip.length
    let hasDot : Bool := match rest1 with | '.' :: _ => true | _ => false
    let fp := if hasDot then (rest1.drop 1).takeWhile isDigitC else []
    if ip.length = 0 ∧ fp.length = 0 then none
    else
      let mantLen := ip.length + (if hasDot then 1 + fp.length else 0)
      let mant : ℚ := (digitsToNat ip : ℚ) + (digitsToNat fp : ℚ) / ((npow 10 fp.length : Nat) : ℚ)
      let (expMul, expLen) := parseExp (cs.drop mantLen)
      some (.fin (mant * expMul), mantLen + expLen)

/-- The exact `strtod` conversion underlying `std::stod(s, &pos)`: skip
whitespace, read an optional sign, convert the longest valid prefix.
`some (v, pos)` gives the exact (unrounded) value and the index of the
first unconverted character; `none` models the `std::invalid_argument`
throw when no conversion is possible. -/
def stodExact (s : String) : Option (FVal × Nat) :=
  let cs := s.data
  let ws := (cs.takeWhile isSpaceC).length
  match cs.drop ws with
  | '-' :: r => (stodCore r).map (fun p => (p.1.neg, ws + 1 + p.2))
  | '+' :: r => (stodCore r).map (fun p => (p.1, ws + 1 + p.2))
  | rest => (stodCore rest).map (fun p => (p.1, ws + p.2))

/-- Round a rational to an integer, ties to even (the IEEE-754 default
rounding used when a parsed literal is converted to a double). -/
def rne (x : ℚ) : Int :=
  let n := Rat.floor x
  let f := x - n
  if f < 1/2 then n
  else if 1/2 < f then n + 1
  else if n % 2 = 0 then n else n + 1

/-- Find, with enough fuel, some exponent `hi ≥ -1074` with
`q < 2 ^ (hi + 53)`, by growing the candidate towards `+∞`. -/
def ulpExpUpper (q : ℚ) : Nat → Int → Int
  | 0, hi => hi
  | f + 1, hi => if q < pow2 (hi + 53) then hi else ulpExpUpper q f (2 * hi + 1075)

/-- Binary search for the least `e` in `[lo, hi]` with `q < 2 ^ (e + 53)`
(the predicate is monotone in `e` and holds at `hi`). -/
def ulpExpSearch (q : ℚ) : Nat → Int → Int → Int
  | 0, lo, _ => lo
  | f + 1, lo, hi =>
    if hi ≤ lo then lo
    else
      let mid := lo + (hi - lo) / 2
      if q < pow2 (mid + 53) then ulpExpSearch q f lo mid
      else ulpExpSearch q f (mid + 1) hi

/-- The binary64 ulp exponent for a positive magnitude `q`: the least
`e ≥ -1074` with `q < 2 ^ (e + 53)`, i.e.
`max (⌊log2 q⌋ - 52) (-1074)` — 53-bit spacing for normal magnitudes,
the fixed subnormal spacing `2 ^ -1074` below `2 ^ -1022`. -/
def ulpExp (q : ℚ) : Int :=
  ulpExpSearch q 100 (-1074) (ulpExpUpper q 100 (-1074))

/-- Round a positive magnitude to the IEEE-754 binary64 grid
(round to nearest, ties to even), with unbounded exponent range above —
overflow is detected by the caller. -/
def roundMag (q : ℚ) : ℚ :=
  let e := ulpExp q
  (rne (q / pow2 e) : ℚ) * pow2 e

/-- The value `std::stod` actually returns for an exactly-parsed `FVal`:
finite values are rounded to the nearest binary64 value, and the ERANGE
conditions on which glibc `strtod` makes `std::stod` throw
`std::out_of_range` are reported as `.error ()`: overflow (the rounded
magnitude reaches `2 ^ 1024`) and underflow (a nonzero literal whose
rounded magnitude falls below the smallest normal `2 ^ -1022`, a
subnormal or zero result).  Literal `inf`/`nan` forms convert without
ERANGE. -/
def doubleOfExact : FVal → Except Unit FVal
  | .fin q =>
    if q = 0 then .ok (.fin 0)
    else
      let m := roundMag |q|
      if ((npow 2 1024 : Nat) : ℚ) ≤ m then .error ()
      else if m < ((npow 2 1022 : Nat) : ℚ)⁻¹ then .error ()
      else .ok (.fin (if q < 0 then -m else m))
  | .inf => .ok .inf
  | .neginf => .ok .neginf
  | .nan => .ok .nan

/-- Model of C++ `std::stod(s, &pos)`: the exact `strtod` parse followed
by the double conversion.  `some (.ok v, pos)` is a normal return of the
rounded value, `some (.error (), pos)` models the `std::out_of_range`
throw on ERANGE, `none` the `std::invalid_argument` throw. -/
def stod (s : String) : Option (Except Unit FVal × Nat) :=
  (stodExact s).map (fun p => (doubleOfExact p.1, p.2))

/-- The three validation error kinds thrown by `validate_input` (carrying
the field's display name, which the C++ code embeds in the message). -/
inductive ValError where
  | missingField (name : String)
  | invalidNumber (name : String)
  | outOfRange (name : String)
deriving DecidableEq

/-- `validate_input(name, value, min, max)` from the source: throws
`<name> is required.` on an empty value, `<name> must be a valid number.`
when `stod` throws `std::invalid_argument` or leaves trailing
characters, `<name> is out of range.` when `stod` throws
`std::out_of_range` (ERANGE — checked before the trailing-character test,
since the `stod` call itself throws), and
`<name> must be between <min> and <max>.` when the converted value
compares below `min` or above `max`.  The latter two messages are the
same `outOfRange` error kind of the specification's taxonomy. -/
def validate_input (name value : String) (min max : ℚ) : Except ValError Unit :=
  if value = "" then .error (.missingField name)
  else
    match stod value with
    | none => .error (.invalidNumber name)
    | some (.error _, _) => .error (.outOfRange name)
    | some (.ok v, pos) =>
      if pos ≠ value.length then .error (.invalidNumber name)
      else if v.ltQ min || v.gtQ max then .error (.outOfRange name)
      else .ok ()

/-- The full parse of a string: the converted double when `stod` consumes
the string entirely and returns normally, `none` otherwise. -/
def parsesFully (s : String) : Option FVal :=
  match stod s with
  | some (.ok v, n) => if n = s.length then some v else none
  | _ => none

/-- Whether `stod` throws `std::out_of_range` on this string (ERANGE
overflow or underflow of the converted literal). -/
def parseRangeErr (s : String) : Bool :=
  match stod s with
  | some (.error _, _) => true
  | _ => false

/-! ## The session store -/

/-- `SESSION_DIR` from the source. -/
def SESSION_DIR : String := "/tmp/sessions/"

/-- `SESSION_EXPIRY` from the source (seconds). -/
def SESSION_EXPIRY : Int := 3600

/-- JSON values as far as the session records use them: the `nlohmann`
documents written by `Session::save` contain only objects, strings and
integer timestamps.  (Arrays, booleans and non-integer numbers never
occur in a record the program writes.) -/
inductive JValue where
  | null
  | str (s : String)
  | num (n : Int)
  | obj (fields : List (String × JValue))

/-- Contents of a session file: either a document that `json::parse`
accepts, or text on which `json::parse` throws a parse error. -/
inductive FileContents where
  | doc (v : JValue)
  | garbage

/-- The session directory, as a mapping from file paths to contents. -/
abbrev FS := List (String × FileContents)

/-- File lookup (`file_exists` + reading the file). -/
def lookupFS (fs : FS) (p : String) : Option FileContents :=
  List.lookup p fs

/-- Writing a file, replacing any previous contents at that path. -/
def insertFS (fs : FS) (p : String) (c : FileContents) : FS :=
  (p, c) :: List.filter (fun e => e.1 != p) fs

/-- A `Session` object: identifier, the `data` JSON object (an object of
string values throughout the program's own writes), and the
`last_accessed` timestamp. -/
structure Session where
  id : String
  data : List (String × String)
  last_accessed : Int
deriving DecidableEq

/-- `Session::get_file_path` for a given identifier. -/
def sessionFilePath (id : String) : String :=
  SESSION_DIR ++ id ++ ".json"

/-- Insertion into a JSON object (`data[key] = value`): map semantics,
the new binding shadows any previous one for the same key. -/
def jset (d : List (String × String)) (k v : String) : List (String × String) :=
  (k, v) :: List.filter (fun e => e.1 != k) d

/-- The `data` member serialized as a JSON object of strings. -/
def jsonOfData (d : List (String × String)) : JValue :=
  .obj (d.map (fun p => (p.1, .str p.2)))

/-- The record `Session::save` writes: `{"data": ..., "last_accessed": ...}`. -/
def Session.serialize (s : Session) : JValue :=
  .obj [("data", jsonOfData s.data), ("last_accessed", .num s.last_accessed)]

/-- `Session::save`: write the serialized record to the session file. -/
def Session.save (s : Session) (fs : FS) : FS :=
  insertFS fs (sessionFilePath s.id) (.doc s.serialize)

/-- Reading a list of string entries back out of a JSON object;
`none` when some value is not a string. -/
def strEntries? : List (String × JValue) → Option (List (String × String))
  | [] => some []
  | (k, .str v) :: rest => (strEntries? rest).map (fun l => (k, v) :: l)
  | _ => none

/-- The `data` member obtained from assigning a loaded JSON value:
a missing/`null` field and any non-(string-object) shape behave as an
empty mapping for the lookups the program performs (`json::contains`
returns `false` on a non-object; `Session::set` on such a value would
throw in C++, a path no theorem here exercises). -/
def dataOfJson : JValue → List (String × String)
  | .obj fields => (strEntries? fields).getD []
  | _ => []

/-- The two ways loading can throw: `json::parse` failing on the file, or
the conversion of a loaded value throwing a type error (`operator[]` on a
non-object document, or `last_accessed` not a number). -/
inductive LoadError where
  | parseError
  | typeError
deriving DecidableEq

/-- `Session::load`: if the session file exists, parse it, take `data`
and `last_accessed` from it, and clear `data` when the record is older
than `SESSION_EXPIRY`.  A missing file leaves the session unchanged; a
file that fails to parse, a non-object document, or a non-numeric
`last_accessed` raises (the C++ exception propagates uncaught out of the
`Session` constructor). -/
def Session.load (s : Session) (fs : FS) (now : Int) : Except LoadError Session :=
  match lookupFS fs (sessionFilePath s.id) with
  | none => .ok s
  | some .garbage => .error .parseError
  | some (.doc v) =>
    match v with
    | .obj fields =>
      let d := dataOfJson ((List.lookup "data" fields).getD .null)
      match List.lookup "last_accessed" fields with
      | some (.num t) =>
        if now - t > SESSION_EXPIRY then .ok { s with data := [], last_accessed := t }
        else .ok { s with data := d, last_accessed := t }
      | _ => .error .typeError
    | _ => .error .typeError

/-- The `Session` constructor: with an empty identifier, mint a fresh one
(`generate_session_id`, passed in as `freshId` since UUID generation is
an external effect) with empty data at the current time; with a supplied
identifier, load.  When no record exists, `load` returns without touching
`last_accessed`, which the constructor never initialized — `uninit`
models that indeterminate value explicitly. -/
def Session.create (session_id : String) (fs : FS) (now uninit : Int)
    (freshId : String) : Except LoadError Session :=
  if session_id = "" then .ok ⟨freshId, [], now⟩
  else Session.load ⟨session_id, [], uninit⟩ fs now

/-- `Session::set`: store the value, refresh `last_accessed`, save. -/
def Session.set (s : Session) (k v : String) (now : Int) (fs : FS) : Session × FS :=
  let s' : Session := { s with data := jset s.data k v, last_accessed := now }
  (s', s'.save fs)

/-- `Session::get`: when the key is present, refresh `last_accessed`,
save, and return the stored value; otherwise return the default with no
state change. -/
def Session.get (s : Session) (k d : String) (now : Int) (fs : FS) :
    String × Session × FS :=
  match List.lookup k s.data with
  | some v =>
    let s' : Session := { s with last_accessed := now }
    (v, s', s'.save fs)
  | none => (d, s, fs)

/-- `Session::is_expired`. -/
def Session.is_expired (s : Session) (now : Int) : Bool :=
  now - s.last_accessed > SESSION_EXPIRY

/-! ## The calculator -/

/-- C `round`: round half away from zero, as a rational-valued map. -/
def cppRound (q : ℚ) : ℚ :=
  if q < 0 then -((Rat.floor (-q + 1/2) : Int) : ℚ)
  else ((Rat.floor (q + 1/2) : Int) : ℚ)

/-- The link-budget computation from `main` (lines 221–222): sum the
gains and subtract the losses, then round to two decimal places. -/
def calculate (tx_power tx_gain free_space_loss misc_loss rx_gain rx_loss : ℚ) : ℚ :=
  let received_power := tx_power + tx_gain - free_space_loss - misc_loss + rx_gain - rx_loss
  cppRound (received_power * 100) / 100

/-- Modelled from the spec: `round_to_2dp(x) = round(x*100)/100`, the
rounding the specification's calculator contract names. -/
def round_to_2dp (x : ℚ) : ℚ :=
  cppRound (x * 100) / 100

/-- The six `stod` conversions and the arithmetic of `main` after
validation: every operand there is finite (or `nan`, which the range
check lets through and which propagates); infinities cannot reach this
point because `inf > max` and `-inf < min` always fail validation. -/
def computePower (a b c d e f : FVal) : FVal :=
  match a.toQ?, b.toQ?, c.toQ?, d.toQ?, e.toQ?, f.toQ? with
  | some qa, some qb, some qc, some qd, some qe, some qf =>
    .fin (calculate qa qb qc qd qe qf)
  | _, _, _, _, _, _ => .nan

/-- `std::to_string(double)`: fixed notation with six decimal places
(`%f`); the magnitude is rounded at the sixth place and the sign
prepended.  (No value the program formats sits at a rounding tie.) -/
def natPad6 (n : Nat) : String :=
  let s := toString n
  String.mk (List.replicate (6 - s.length) '0') ++ s

/-- See `natPad6`; formats an `FVal` the way `std::to_string` renders the
corresponding double. -/
def to_string_double : FVal → String
  | .fin q =>
    let scaled : Nat := (cppRound (|q| * 1000000)).num.toNat
    (if q < 0 then "-" else "") ++ toString (scaled / 1000000) ++ "." ++ natPad6 (scaled % 1000000)
  | .inf => "inf"
  | .neginf => "-inf"
  | .nan => "nan"

/-! ## The request pipeline (`main`) -/

/-- Field access on the parsed CGI input: `std::map::operator[]` yields
the empty string for an absent key. -/
def getField (input : List (String × String)) (k : String) : String :=
  (List.lookup k input).getD ""

/-- The six validation calls of `main` (lines 205–210), in source order
with the literal bounds. -/
def validateAll (input : List (String × String)) : Except ValError Unit := do
  validate_input "Transmit Power" (getField input "tx_power") (-30) 60
  validate_input "Transmit Antenna Gain" (getField input "tx_gain") (-20) 50
  validate_input "Free Space Loss" (getField input "free_space_loss") 0 200
  validate_input "Miscellaneous Loss" (getField input "misc_loss") 0 50
  validate_input "Receiver Antenna Gain" (getField input "rx_gain") (-20) 50
  validate_input "Receiver Loss" (getField input "rx_loss") 0 50

/-- The bounds table as the specification states it:
(display name, input key, min, max). -/
def boundsTable : List (String × String × ℚ × ℚ) :=
  [("Transmit Power", "tx_power", -30, 60),
   ("Transmit Antenna Gain", "tx_gain", -20, 50),
   ("Free Space Loss", "free_space_loss", 0, 200),
   ("Miscellaneous Loss", "misc_loss", 0, 50),
   ("Receiver Antenna Gain", "rx_gain", -20, 50),
   ("Receiver Loss", "rx_loss", 0, 50)]

/-- One table-driven validation step. -/
def validateField (input : List (String × String)) (f : String × String × ℚ × ℚ) :
    Except ValError Unit :=
  validate_input f.1 (getField input f.2.1) f.2.2.1 f.2.2.2

/-- Sequential validation over a bounds table, stopping at the first
failure. -/
def seqValidate (tbl : List (String × String × ℚ × ℚ))
    (input : List (String × String)) : Except ValError Unit :=
  match tbl with
  | [] => .ok ()
  | f :: rest => do
    validateField input f
    seqValidate rest input

/-- `stod` as `main` re-applies it after validation (the `.nan` default
is unreachable: validation guarantees the string converts without
throwing). -/
def stodF (v : String) : FVal :=
  match stod v with
  | some (.ok x, _) => x
  | _ => .nan

deriving instance DecidableEq for Except

/-- The successful page contents: the computed received power, the value
read back from the session for the previous-result line, and that line's
contents when it is rendered (`none` when suppressed). -/
structure PageOk where
  received_power : FVal
  last_calculation : String
  previousShown : Option String
deriving DecidableEq

/-- The response: the optional `Set-Cookie` value (the session identifier
when the header is emitted) and the page body — an error message or a
result page. -/
structure Response where
  setCookie : Option String
  page : Except ValError PageOk
deriving DecidableEq

/-- The `Set-Cookie` decision of `main` (line 190): emitted when the
request carried no identifier or the session is expired. -/
def cookieHeader (session_id : String) (s : Session) (now : Int) : Option String :=
  if session_id = "" || s.is_expired now then some s.id else none

/-- One request/response cycle of `main`: construct the session from the
cookie value (exceptions there propagate uncaught), decide the
`Set-Cookie` header, validate the six fields, and on success compute the
result, store it under `last_calculation`, read that key back, and render
the previous-calculation line only when the read-back value differs from
the fresh result.  On a validation failure the error is the page and the
session and filesystem are untouched. -/
def runRequest (session_id : String) (input : List (String × String)) (fs : FS)
    (now uninit : Int) (freshId : String) : Except LoadError (Response × Session × FS) :=
  match Session.create session_id fs now uninit freshId with
  | .error e => .error e
  | .ok s =>
    let cookie := cookieHeader session_id s now
    match validateAll input with
    | .error ve => .ok ({ setCookie := cookie, page := .error ve }, s, fs)
    | .ok _ =>
      let tx_power := stodF (getField input "tx_power")
      let tx_gain := stodF (getField input "tx_gain")
      let free_space_loss := stodF (getField input "free_space_loss")
      let misc_loss := stodF (getField input "misc_loss")
      let rx_gain := stodF (getField input "rx_gain")
      let rx_loss := stodF (getField input "rx_loss")
      let received_power := computePower tx_power tx_gain free_space_loss misc_loss rx_gain rx_loss
      let p1 := Session.set s "last_calculation" (to_string_double received_power) now fs
      let p2 := Session.get p1.1 "last_calculation" "No previous calculation" now p1.2
      let prev := if p2.1 != to_string_double received_power then some p2.1 else none
      .ok ({ setCookie := cookie,
             page := .ok ⟨received_power, p2.1, prev⟩ }, p2.2.1, p2.2.2)

/-- The worked example input of the specification. -/
def exampleInput : List (String × String) :=
  [("tx_power", "20"), ("tx_gain", "10"), ("free_space_loss", "120"),
   ("misc_loss", "2"), ("rx_gain", "15"), ("rx_loss", "1")]

/-- The worked example with `tx_power` replaced by the out-of-range `100`. -/
def inputTxHigh : List (String × String) :=
  [("tx_power", "100"), ("tx_gain", "10"), ("free_space_loss", "120"),
   ("misc_loss", "2"), ("rx_gain", "15"), ("rx_loss", "1")]

/-- The worked example with the `rx_loss` field absent (so its raw value
is the empty string). -/
def inputNoRxLoss : List (String × String) :=
  [("tx_power", "20"), ("tx_gain", "10"), ("free_space_loss", "120"),
   ("misc_loss", "2"), ("rx_gain", "15"), ("rx_loss", "")]

/-- A store whose record for session `abc` is not valid JSON. -/
def corruptStore : FS := [(sessionFilePath "abc", .garbage)]

/-- A store holding a prior, unexpired session `abc` whose
`last_calculation` is `5.00`. -/
def priorStore : FS :=
  [(sessionFilePath "abc",
    .doc (.obj [("data", jsonOfData [("last_calculation", "5.00")]),
                ("last_accessed", .num 0)]))]

/-- A store holding a well-formed record for session `a` with one data
entry and timestamp `0`. -/
def recordStoreA : FS :=
  [(sessionFilePath "a",
    .doc (.obj [("data", jsonOfData [("x", "y")]), ("last_accessed", .num 0)]))]

/-! ## Helper lemmas -/

lemma except_bind_ok_unit (x : Except ValError Unit) :
    (x >>= fun _ => (Except.ok () : Except ValError Unit)) = x := by
  cases x with
  | error e => rfl
  | ok a => cases a; rfl

/-- The six inlined validation calls of `main` are exactly sequential
validation over the specification's bounds table. -/
lemma validateAll_eq_seq (input : List (String × String)) :
    validateAll input = seqValidate boundsTable input := by
  show validateAll input =
    (validateField input ("Transmit Power", "tx_power", -30, 60) >>= fun _ =>
     validateField input ("Transmit Antenna Gain", "tx_gain", -20, 50) >>= fun _ =>
     validateField input ("Free Space Loss", "free_space_loss", 0, 200) >>= fun _ =>
     validateField input ("Miscellaneous Loss", "misc_loss", 0, 50) >>= fun _ =>
     validateField input ("Receiver Antenna Gain", "rx_gain", -20, 50) >>= fun _ =>
     validateField input ("Receiver Loss", "rx_loss", 0, 50) >>= fun _ =>
     (Except.ok () : Except ValError Unit))
  rw [except_bind_ok_unit]
  rfl

lemma strEntries_map (l : List (String × String)) :
    strEntries? (l.map (fun p => (p.1, JValue.str p.2))) = some l := by
  induction l with
  | nil => rfl
  | cons p rest ih =>
    obtain ⟨a, b⟩ := p
    simp [strEntries?, ih]

lemma dataOfJson_jsonOfData (l : List (String × String)) :
    dataOfJson (jsonOfData l) = l := by
  simp [dataOfJson, jsonOfData, strEntries_map]

lemma lookup_jset_self (d : List (String × String)) (k v : String) :
    List.lookup k (jset d k v) = some v := by
  simp [jset, List.lookup]

lemma lookupFS_insertFS_self (fs : FS) (p : String) (c : FileContents) :
    lookupFS (insertFS fs p c) p = some c := by
  simp [lookupFS, insertFS, List.lookup]

lemma load_wellformed_record (s : Session) (fs : FS) (now t : Int)
    (d : List (String × String))
    (hrec : lookupFS fs (sessionFilePath s.id) =
      some (.doc (.obj [("data", jsonOfData d), ("last_accessed", .num t)]))) :
    Session.load s fs now =
      if now - t > SESSION_EXPIRY then .ok { s with data := [], last_accessed := t }
      else .ok { s with data := d, last_accessed := t } := by
  unfold Session.load
  rw [hrec]
  simp [List.lookup, dataOfJson_jsonOfData]

/-! ## Theorems for the claims -/

/-- C1: for all six (validated) numeric inputs, the link-budget
calculation returns `round((tx_power + tx_gain - free_space_loss -
misc_loss + rx_gain - rx_loss) * 100) / 100`, i.e. the sum of gains minus
losses rounded to two decimal places; in particular the worked example
`tx_power=20, tx_gain=10, free_space_loss=120, misc_loss=2, rx_gain=15,
rx_loss=1` yields `-78.00`, both as a direct calculation and through the
whole request pipeline. -/
theorem calculate_rounds_sum :
    (∀ a b c d e f : ℚ, calculate a b c d e f = round_to_2dp (a + b - c - d + e - f)) ∧
    calculate 20 10 120 2 15 1 = -78 ∧
    (∃ s2 fs2, runRequest "" exampleInput [] 0 0 "session-1" =
      .ok ({ setCookie := some "session-1",
             page := .ok ⟨.fin (-78), "-78.000000", none⟩ }, s2, fs2)) := by
  refine ⟨fun a b c d e f => rfl, by with_unfolding_all decide, ?_⟩
  exact ⟨⟨"session-1", [("last_calculation", "-78.000000")], 0⟩,
    [(sessionFilePath "session-1",
      .doc (.obj [("data", .obj [("last_calculation", .str "-78.000000")]),
                  ("last_accessed", .num 0)]))],
    by with_unfolding_all rfl⟩

/-- C2 counterexample: concrete inputs refuting the claim as stated.
`nan` and `nan(1)` are converted entirely by `stod` (to NaN, which
carries no finite value), both range comparisons are false on NaN, and
validation succeeds — an out-of-bounds/non-numeric value silently
passed.  Conversely `1e-310` denotes a value inside `[0, 200]`, yet
`stod`'s ERANGE underflow throw makes validation report the `OutOfRange`
kind.  (`0x10`, a hexadecimal float with value 16, is also accepted,
consistently with the bounds.) -/
theorem validate_nan_silently_accepted :
    validate_input "Transmit Power" "nan" (-30) 60 = .ok () ∧
    validate_input "Transmit Power" "nan(1)" (-30) 60 = .ok () ∧
    stod "nan" = some (.ok .nan, 3) ∧ FVal.toQ? .nan = none ∧
    validate_input "Free Space Loss" "1e-310" 0 200 = .error (.outOfRange "Free Space Loss") ∧
    stodExact "1e-310" = some (.fin (((npow 10 310 : Nat) : ℚ)⁻¹), 6) ∧
    ((0 : ℚ) ≤ ((npow 10 310 : Nat) : ℚ)⁻¹ ∧ ((npow 10 310 : Nat) : ℚ)⁻¹ ≤ 200) ∧
    validate_input "Transmit Power" "0x10" (-30) 60 = .ok () ∧
    stod "0x10" = some (.ok (.fin 16), 4) := by
  exact ⟨by with_unfolding_all decide, by with_unfolding_all decide,
         by with_unfolding_all decide, rfl,
         by with_unfolding_all rfl, by with_unfolding_all rfl,
         ⟨by with_unfolding_all decide, by with_unfolding_all decide⟩,
         by with_unfolding_all decide, by with_unfolding_all decide⟩

/-- C2 (amended): for every string input, `validate(name, raw, min, max)`
returns exactly one of: success (when the raw value is non-empty, parses
entirely without a range error, and the converted double is either a
finite value within `[min, max]` inclusive or NaN — the silent leak, in
all its `nan`/`nan(chars)` spellings), `MissingField` when the raw value
is empty, `InvalidNumber` when it is not parseable in its entirety (and
no range error occurred first), or `OutOfRange` when `stod` throws
`out_of_range` (ERANGE overflow or underflow — the latter even for tiny
values inside the bounds) or the converted value is finite outside
`[min, max]` or an infinity; and the six fields of the request use
exactly the bounds of the specification's table. -/
theorem validate_input_total (name value : String) (lo hi : ℚ) :
    (∀ input, validateAll input = seqValidate boundsTable input) ∧
    (validate_input name value lo hi = .ok () ↔
      value ≠ "" ∧ ((∃ q, parsesFully value = some (.fin q) ∧ lo ≤ q ∧ q ≤ hi) ∨
        parsesFully value = some .nan)) ∧
    (validate_input name value lo hi = .error (.missingField name) ↔ value = "") ∧
    (validate_input name value lo hi = .error (.invalidNumber name) ↔
      value ≠ "" ∧ parseRangeErr value = false ∧ parsesFully value = none) ∧
    (validate_input name value lo hi = .error (.outOfRange name) ↔
      value ≠ "" ∧ (parseRangeErr value = true ∨
        (∃ q, parsesFully value = some (.fin q) ∧ (q < lo ∨ hi < q)) ∨
        parsesFully value = some .inf ∨ parsesFully value = some .neginf)) := by
  refine ⟨validateAll_eq_seq, ?_⟩
  · by_cases hv : value = ""
    · simp [validate_input, hv]
    · rcases hs : stod value with _ | ⟨r, pos⟩
      · simp [validate_input, parsesFully, parseRangeErr, hv, hs]
      · rcases r with u | v
        · simp [validate_input, parsesFully, parseRangeErr, hv, hs]
        · by_cases hp : pos = value.length
          · rcases v with q | _ | _ | _
            · by_cases hlt : q < lo
              · simp [validate_input, parsesFully, parseRangeErr, hv, hs, hp,
                  FVal.ltQ, FVal.gtQ, hlt]
              · by_cases hgt : hi < q
                · simp [validate_input, parsesFully, parseRangeErr, hv, hs, hp,
                    FVal.ltQ, FVal.gtQ, hlt, hgt]
                · simp [validate_input, parsesFully, parseRangeErr, hv, hs, hp,
                    FVal.ltQ, FVal.gtQ, hlt, hgt]
                  exact ⟨le_of_not_lt hlt, le_of_not_lt hgt⟩
            · simp [validate_input, parsesFully, parseRangeErr, hv, hs, hp, FVal.ltQ, FVal.gtQ]
            · simp [validate_input, parsesFully, parseRangeErr, hv, hs, hp, FVal.ltQ, FVal.gtQ]
            · simp [validate_input, parsesFully, parseRangeErr, hv, hs, hp, FVal.ltQ, FVal.gtQ]
          · simp [validate_input, parsesFully, parseRangeErr, hv, hs, hp]

/-- C3: `set(k, v)` followed by `get(k, default)` returns `v`; the same
holds after persisting and reloading a session with the same (non-empty)
identifier from the session file, provided no expiry intervened. -/
theorem session_set_get_roundtrip (s : Session) (k v d freshId : String) (fs : FS)
    (now now2 uninit : Int) (hid : s.id ≠ "") (hfresh : now2 - now ≤ SESSION_EXPIRY) :
    (Session.get (Session.set s k v now fs).1 k d now (Session.set s k v now fs).2).1 = v ∧
    Session.create s.id (Session.set s k v now fs).2 now2 uninit freshId =
      .ok ⟨s.id, jset s.data k v, now⟩ ∧
    ∀ fs2 : FS, (Session.get ⟨s.id, jset s.data k v, now⟩ k d now2 fs2).1 = v := by
  refine ⟨?_, ?_, ?_⟩
  · simp [Session.set, Session.get, lookup_jset_self]
  · unfold Session.create
    rw [if_neg hid]
    rw [load_wellformed_record ⟨s.id, [], uninit⟩ (Session.set s k v now fs).2 now2 now
          (jset s.data k v)
          (by simp [Session.set, Session.save, Session.serialize, lookupFS_insertFS_self])]
    rw [if_neg (not_lt.mpr hfresh)]
  · intro fs2
    simp [Session.get, lookup_jset_self]

/-- C3 witness: round-trip at a concrete session, key and value. -/
theorem session_set_get_roundtrip_witness :
    ((⟨"s0", [], 0⟩ : Session).id ≠ "" ∧ (10 : Int) - 0 ≤ SESSION_EXPIRY) ∧
    (Session.get (Session.set ⟨"s0", [], 0⟩ "k" "v" 0 []).1 "k" "dflt" 0
        (Session.set ⟨"s0", [], 0⟩ "k" "v" 0 []).2).1 = "v" ∧
    Session.create "s0" (Session.set ⟨"s0", [], 0⟩ "k" "v" 0 []).2 10 7 "f" =
      .ok ⟨"s0", jset [] "k" "v", 0⟩ ∧
    (Session.get ⟨"s0", jset [] "k" "v", 0⟩ "k" "dflt" 10 []).1 = "v" := by
  have h := session_set_get_roundtrip ⟨"s0", [], 0⟩ "k" "v" "dflt" "f" [] 0 10 7
    (by decide) (by decide)
  exact ⟨⟨by decide, by decide⟩, h.1, h.2.1, h.2.2 []⟩

/-- C4: loading a session whose well-formed persisted record is older
than `SESSION_EXPIRY` yields an empty data mapping while the identifier
and the loaded timestamp are preserved; a record aged `SESSION_EXPIRY`
or less keeps its data mapping intact. -/
theorem session_load_expiry (id freshId : String) (d : List (String × String))
    (t now uninit : Int) (fs : FS) (hid : id ≠ "")
    (hrec : lookupFS fs (sessionFilePath id) =
      some (.doc (.obj [("data", jsonOfData d), ("last_accessed", .num t)]))) :
    (now - t > SESSION_EXPIRY → Session.create id fs now uninit freshId = .ok ⟨id, [], t⟩) ∧
    (now - t ≤ SESSION_EXPIRY → Session.create id fs now uninit freshId = .ok ⟨id, d, t⟩) := by
  constructor <;> intro h <;>
    · unfold Session.create
      rw [if_neg hid]
      rw [load_wellformed_record ⟨id, [], uninit⟩ fs now t d hrec]
      first
        | rw [if_pos h]
        | rw [if_neg (not_lt.mpr h)]

/-- C4 witness: both branches at a concrete record with timestamp `0`,
once at time `4000` (expired) and once at time `100` (fresh). -/
theorem session_load_expiry_witness :
    (("a" : String) ≠ "" ∧
     lookupFS recordStoreA (sessionFilePath "a") =
       some (.doc (.obj [("data", jsonOfData [("x", "y")]), ("last_accessed", .num 0)]))) ∧
    ((4000 : Int) - 0 > SESSION_EXPIRY ∧
     Session.create "a" recordStoreA 4000 7 "f" = .ok ⟨"a", [], 0⟩) ∧
    ((100 : Int) - 0 ≤ SESSION_EXPIRY ∧
     Session.create "a" recordStoreA 100 7 "f" = .ok ⟨"a", [("x", "y")], 0⟩) := by
  have h1 := session_load_expiry "a" "f" [("x", "y")] 0 4000 7 recordStoreA (by decide) rfl
  have h2 := session_load_expiry "a" "f" [("x", "y")] 0 100 7 recordStoreA (by decide) rfl
  exact ⟨⟨by decide, rfl⟩, ⟨by decide, h1.1 (by decide)⟩, ⟨by decide, h2.2 (by decide)⟩⟩

/-- C5 counterexample: opening a session whose record exists but is not
parseable JSON does not behave as a fresh session — the parse error
propagates out of the constructor (uncaught in `main`), refuting the
claim that a malformed record fails open. -/
theorem malformed_record_raises_parse_error :
    Session.create "abc" corruptStore 0 0 "fid" = .error .parseError := by
  with_unfolding_all rfl

/-- C5 (amended): when the per-identifier record is *missing*, opening
the session raises no error and behaves as a fresh session retaining the
supplied identifier with an empty data mapping (its last-accessed
timestamp, however, is left uninitialized); a *malformed* record instead
raises a parse error that propagates. -/
theorem session_missing_record_fresh (id freshId : String) (fs : FS) (now uninit : Int)
    (hid : id ≠ "") (hmiss : lookupFS fs (sessionFilePath id) = none) :
    Session.create id fs now uninit freshId = .ok ⟨id, [], uninit⟩ := by
  unfold Session.create
  rw [if_neg hid]
  unfold Session.load
  rw [hmiss]

/-- C5 witness: a concrete missing record. -/
theorem session_missing_record_fresh_witness :
    (("z" : String) ≠ "" ∧ lookupFS [] (sessionFilePath "z") = none) ∧
    Session.create "z" [] 3 9 "f" = .ok ⟨"z", [], 9⟩ := by
  exact ⟨⟨by decide, rfl⟩, session_missing_record_fresh "z" "f" [] 3 9 (by decide) rfl⟩

/-- C6 counterexample: `get` on an absent key does *not* refresh
`last_accessed` and does *not* persist — at time `5` the returned session
still carries timestamp `0` and the store still holds no record —
refuting the claim that every read extends the session lifetime. -/
theorem get_absent_key_counterexample :
    Session.get ⟨"abc", [], 0⟩ "last_calculation" "dflt" 5 [] =
      ("dflt", ⟨"abc", [], 0⟩, []) ∧
    (0 : Int) ≠ 5 ∧ lookupFS [] (sessionFilePath "abc") = none := by
  exact ⟨rfl, by decide, rfl⟩

/-- C6 (amended): `get(key, default)` returns the stored value when the
key is present — and only then refreshes `last_accessed` to the current
time and persists the full session state — and returns the default with
no state change at all when the key is absent. -/
theorem get_branch_behavior (s : Session) (k d : String) (now : Int) (fs : FS) :
    (∀ v, List.lookup k s.data = some v →
      Session.get s k d now fs =
        (v, { s with last_accessed := now },
         Session.save { s with last_accessed := now } fs)) ∧
    (List.lookup k s.data = none → Session.get s k d now fs = (d, s, fs)) := by
  constructor
  · intro v hv
    simp [Session.get, hv]
  · intro hnone
    simp [Session.get, hnone]

/-- C6 witness: both branches at concrete sessions. -/
theorem get_branch_behavior_witness :
    Session.get ⟨"a", [("k", "v")], 0⟩ "k" "dflt" 5 [] =
      ("v", ⟨"a", [("k", "v")], 5⟩, Session.save ⟨"a", [("k", "v")], 5⟩ []) ∧
    Session.get ⟨"a", [], 0⟩ "k" "dflt" 5 [] = ("dflt", ⟨"a", [], 0⟩, []) := by
  exact ⟨(get_branch_behavior ⟨"a", [("k", "v")], 0⟩ "k" "dflt" 5 []).1 "v" rfl,
         (get_branch_behavior ⟨"a", [], 0⟩ "k" "dflt" 5 []).2 rfl⟩

/-- C7: when validation of the request fails, processing aborts before
any calculation: the error produced by the (first) failing field is the
page's error, no result is computed, and both the session object and the
persisted store are returned unchanged. -/
theorem validation_failure_aborts (session_id : String) (input : List (String × String))
    (fs : FS) (now uninit : Int) (freshId : String) (s : Session) (e : ValError)
    (hopen : Session.create session_id fs now uninit freshId = .ok s)
    (hval : validateAll input = .error e) :
    runRequest session_id input fs now uninit freshId =
      .ok ({ setCookie := cookieHeader session_id s now, page := .error e }, s, fs) := by
  simp [runRequest, hopen, hval]

/-- C7 witness: `tx_power=100` surfaces `OutOfRange` for "Transmit
Power", and an empty `rx_loss` surfaces `MissingField` for "Receiver
Loss"; in both runs the session and store come back untouched. -/
theorem validation_failure_aborts_witness :
    (Session.create "" [] 0 0 "fid" = .ok ⟨"fid", [], 0⟩ ∧
     validateAll inputTxHigh = .error (.outOfRange "Transmit Power") ∧
     runRequest "" inputTxHigh [] 0 0 "fid" =
       .ok ({ setCookie := cookieHeader "" ⟨"fid", [], 0⟩ 0,
              page := .error (.outOfRange "Transmit Power") }, ⟨"fid", [], 0⟩, [])) ∧
    (validateAll inputNoRxLoss = .error (.missingField "Receiver Loss") ∧
     runRequest "" inputNoRxLoss [] 0 0 "fid" =
       .ok ({ setCookie := cookieHeader "" ⟨"fid", [], 0⟩ 0,
              page := .error (.missingField "Receiver Loss") }, ⟨"fid", [], 0⟩, [])) := by
  refine ⟨⟨rfl, ?_, ?_⟩, ?_, ?_⟩
  · with_unfolding_all decide
  · exact validation_failure_aborts "" inputTxHigh [] 0 0 "fid" ⟨"fid", [], 0⟩
      (.outOfRange "Transmit Power") rfl (by with_unfolding_all decide)
  · with_unfolding_all decide
  · exact validation_failure_aborts "" inputNoRxLoss [] 0 0 "fid" ⟨"fid", [], 0⟩
      (.missingField "Receiver Loss") rfl (by with_unfolding_all decide)

/-- C8: with a supplied identifier whose record is missing, the expiry
check reads the never-initialized `last_accessed` member, so whether
`Set-Cookie` is emitted depends on that indeterminate value: garbage
`-3601` emits the header, garbage `0` does not — the same request with
the same store, differing only in uninitialized memory. -/
theorem set_cookie_depends_on_uninitialized_timestamp :
    runRequest "abc" [] [] 0 (-3601) "fid" =
      .ok ({ setCookie := some "abc", page := .error (.missingField "Transmit Power") },
           ⟨"abc", [], -3601⟩, []) ∧
    runRequest "abc" [] [] 0 0 "fid" =
      .ok ({ setCookie := none, page := .error (.missingField "Transmit Power") },
           ⟨"abc", [], 0⟩, []) := by
  exact ⟨by with_unfolding_all rfl, by with_unfolding_all rfl⟩

/-- C9: in a successful request the result is stored *before* the
"previous" value is read back, so the value retrieved for the
previous-result line is the result just computed (`-78.000000`), not the
prior invocation's stored `5.00`, and the previous-calculation line is
never rendered (`previousShown = none`). -/
theorem previous_calculation_is_current_result :
    runRequest "abc" exampleInput priorStore 10 0 "fid" =
      .ok ({ setCookie := none, page := .ok ⟨.fin (-78), "-78.000000", none⟩ },
           ⟨"abc", [("last_calculation", "-78.000000")], 10⟩,
           [(sessionFilePath "abc",
             .doc (.obj [("data", .obj [("last_calculation", .str "-78.000000")]),
                         ("last_accessed", .num 10)]))]) ∧
    ("-78.000000" : String) ≠ "5.00" := by
  exact ⟨by with_unfolding_all rfl, by decide⟩

/-- C10: `get(key, default)` on a session whose data mapping lacks the
key returns the default and performs no state change: the session
(including its `last_accessed` timestamp) and the persisted store are
returned exactly as given. -/
theorem get_absent_key_no_effect (s : Session) (k d : String) (now : Int) (fs : FS)
    (h : List.lookup k s.data = none) :
    Session.get s k d now fs = (d, s, fs) := by
  simp [Session.get, h]

/-- C10 witness: a concrete absent key. -/
theorem get_absent_key_no_effect_witness :
    List.lookup "k" ([] : List (String × String)) = none ∧
    Session.get ⟨"a", [], 0⟩ "k" "dflt" 5 [] = ("dflt", ⟨"a", [], 0⟩, []) := by
  exact ⟨rfl, get_absent_key_no_effect ⟨"a", [], 0⟩ "k" "dflt" 5 [] rfl⟩

end LinkBudget
